import Mathlib

/-!
Shallow embedding of `src/components/Chat.tsx` (the `AIChat` React component,
its `useSpeechRecognition` hook and the module-level `speak` helper).

Modelling conventions:
* React state (`messages`, `input`, `isLoading`, plus the hook's `text` and
  `isRecording`) lives in one record `ChatState`; the capability queries
  (`window.SpeechRecognition`, `window.speechSynthesis`) and the props
  (`storageConsent`, `prescriptionData`) are session-constant fields of the
  same record.
* Event handlers become functions `ChatState → StepResult`, where a
  `StepResult` carries the new state, the list of external side effects
  performed (persistence calls, speech-engine calls, generation requests),
  and a flag recording whether the handler aborted with a thrown JS
  exception (a `TypeError` on a property access of `undefined`).
* The `await getChatResponse` suspension is modelled by passing the
  eventual outcome of the generation call (`Except String String`, the
  error payload being the underlying error text) as an argument to
  `handleSendMessage`; the `finally` and `catch` blocks are inlined.
* React `useEffect` hooks (save-on-change, speech-to-input sync) are
  applied by the `step` wrapper after each handler, exactly when their
  dependency changed, mirroring React's dependency-array semantics.
-/

/-- Message role as in `ChatMessage` from `../types`: the component only ever
constructs roles `"user"` and `"model"`. -/
inductive Role where
  | user
  | model
deriving DecidableEq, Repr

/-- Mirrors `ChatMessage { role, content }`. -/
structure ChatMessage where
  role : Role
  content : String
deriving DecidableEq, Repr

/-- Tri-state `storageConsent` prop: `'pending' | 'accepted' | 'declined'`. -/
inductive Consent where
  | pending
  | accepted
  | declined
deriving DecidableEq, Repr

/-- External side effects the component performs, recorded as a trace.
`persistLoad`, `persistSave`, `persistClear` are the cookie-manager calls
`loadChatHistory` / `saveChatHistory` / `clearChatHistory`; `engineStart` and
`engineStop` are `recognition.start()` / `recognition.stop()`; `synthCancel`
is `window.speechSynthesis.cancel()`; `utter` is
`window.speechSynthesis.speak(utterance)`; `speakInvoke` records each call of
the module-level `speak` function with its argument; `generationRequest`
records the single `getChatResponse(chatHistory, prescriptionData)` call. -/
inductive Effect where
  | persistLoad
  | persistSave (msgs : List ChatMessage)
  | persistClear
  | engineStart
  | engineStop
  | synthCancel
  | utter (text : String)
  | speakInvoke (text : String)
  | generationRequest (history : List ChatMessage) (aux : Option String)
deriving DecidableEq, Repr

/-- Full component state. `recognitionAvailable` models whether
`window.SpeechRecognition || window.webkitSpeechRecognition` existed at mount
(so `recognitionRef.current` is non-null); `synthesisAvailable` models
whether `window.speechSynthesis` exists. `aux` is the opaque
`prescriptionData` prop, `storageConsent` the consent prop. -/
structure ChatState where
  messages : List ChatMessage
  input : String
  isLoading : Bool
  isRecording : Bool
  speechText : String
  recognitionAvailable : Bool
  synthesisAvailable : Bool
  storageConsent : Consent
  aux : Option String
deriving DecidableEq, Repr

/-- Result of running one event handler: the state afterwards, the side
effects performed (in order), and whether the handler aborted by throwing. -/
structure StepResult where
  state : ChatState
  effects : List Effect
  threw : Bool
deriving DecidableEq, Repr

/-- The `initialMessage` greeting constructed in `AIChat`. -/
def initialMessage : ChatMessage :=
  { role := Role.model
    content := "Hello! I\x27m your health & wellness assistant. You can ask me general questions about health topics. How can I help you today?\n\nRemember, I am not a doctor and this is not medical advice." }

/-- The fixed apology/disclaimer content built in the `catch` branch of
`handleSendMessage`. -/
def apologyText : String :=
  "Sorry, I encountered an error. Please try again. \n\nDisclaimer: This is for informational purposes only and not a substitute for professional medical advice."

/-- Models JS `String.prototype.trim()`: drops leading and trailing
whitespace characters (whitespace as decided by `Char.isWhitespace`). -/
def jsTrim (s : String) : String :=
  ⟨((s.data.dropWhile Char.isWhitespace).reverse.dropWhile Char.isWhitespace).reverse⟩

/-- Embeds the module-level `speak(text)` helper: if `window.speechSynthesis`
is absent it warns and returns (no engine effect); otherwise it cancels any
previous speech and speaks a new utterance. The `speakInvoke` marker records
the call itself, so call counts can be stated. -/
def speak (synthesisAvailable : Bool) (text : String) : List Effect :=
  Effect.speakInvoke text ::
    (if synthesisAvailable then [Effect.synthCancel, Effect.utter text] else [])

/-- Embeds the hook's `startRecording`: guarded by
`recognitionRef.current && !isRecording`; clears the hook's `text`, starts
the engine, sets `isRecording`. -/
def startRecording (s : ChatState) : ChatState × List Effect :=
  if s.recognitionAvailable && !s.isRecording then
    ({ s with speechText := "", isRecording := true }, [Effect.engineStart])
  else
    (s, [])

/-- Embeds the hook's `stopRecording`: guarded by
`recognitionRef.current && isRecording`; stops the engine, clears
`isRecording`. -/
def stopRecording (s : ChatState) : ChatState × List Effect :=
  if s.recognitionAvailable && s.isRecording then
    ({ s with isRecording := false }, [Effect.engineStop])
  else
    (s, [])

/-- Embeds `handleToggleRecording`: stop when recording, else start. -/
def handleToggleRecording (s : ChatState) : ChatState × List Effect :=
  if s.isRecording then stopRecording s else startRecording s

/-- Embeds the `recognition.onresult` loop body: one pass over
`event.results`, finalized entries (`isFinal`) appended to
`finalTranscript`, the rest to `interimTranscript`. Each results-list entry
is modelled as its first alternative's transcript paired with its `isFinal`
flag (the code reads `event.results[i][0].transcript`). -/
def scanResultsLoop : List (String × Bool) → String → String → String × String
  | [], finalTranscript, interimTranscript => (finalTranscript, interimTranscript)
  | r :: rest, finalTranscript, interimTranscript =>
    if r.2 then
      scanResultsLoop rest (finalTranscript ++ r.1) interimTranscript
    else
      scanResultsLoop rest finalTranscript (interimTranscript ++ r.1)

/-- The value passed to `setText` by `recognition.onresult`:
`finalTranscript + interimTranscript`. -/
def onresultLiveText (results : List (String × Bool)) : String :=
  let p := scanResultsLoop results "" ""
  p.1 ++ p.2

/-- Result of `getChatResponse`: success carries the response text, failure
carries the underlying error text (which the `catch` branch discards). -/
abbrev GenOutcome := Except String String

/-- Text returned by the generation outcome as the component uses it: the
response on success, the fixed apology on failure. -/
def responseOf : GenOutcome → String
  | Except.ok r => r
  | Except.error _ => apologyText

/-- Embeds `handleSendMessage`. The guard `!input.trim() || isLoading`
returns silently. Then: stop recording if active;
`window.speechSynthesis.cancel()` — an unguarded property access that throws
a `TypeError` when `window.speechSynthesis` is absent (modelled by
`threw := true`, keeping the state changes already applied); append the user
message (content is `input`, untrimmed); clear `input` and the speech text;
set `isLoading`; issue the single generation request with
`[...messages, userMessage]` and `prescriptionData`; on the awaited outcome,
append the model message (response or fixed apology), `speak` it, and clear
`isLoading` in the `finally` block. -/
def handleSendMessage (s : ChatState) (gen : GenOutcome) : StepResult :=
  if jsTrim s.input == "" || s.isLoading then
    { state := s, effects := [], threw := false }
  else
    let r1 := if s.isRecording then stopRecording s else (s, [])
    if !s.synthesisAvailable then
      { state := r1.1, effects := r1.2, threw := true }
    else
      let userMessage : ChatMessage := { role := Role.user, content := s.input }
      let s2 := { r1.1 with
                    messages := r1.1.messages ++ [userMessage]
                    input := ""
                    speechText := ""
                    isLoading := true }
      let chatHistory := s.messages ++ [userMessage]
      let modelMessage : ChatMessage := { role := Role.model, content := responseOf gen }
      let s3 := { s2 with
                    messages := s2.messages ++ [modelMessage]
                    isLoading := false }
      { state := s3
        effects := r1.2 ++ [Effect.synthCancel, Effect.generationRequest chatHistory s.aux]
                    ++ speak s.synthesisAvailable modelMessage.content
        threw := false }

/-- Embeds `handleClearChat`: `clearChatHistory()` when consent is accepted;
reset messages to `[initialMessage]`; `window.speechSynthesis.cancel()`
(unguarded — throws when the capability is absent, after the clear and the
reset already happened); stop recording if active. -/
def handleClearChat (s : ChatState) : StepResult :=
  let e1 := if s.storageConsent = Consent.accepted then [Effect.persistClear] else []
  let s1 := { s with messages := [initialMessage] }
  if !s.synthesisAvailable then
    { state := s1, effects := e1, threw := true }
  else
    let r2 := if s1.isRecording then stopRecording s1 else (s1, [])
    { state := r2.1, effects := e1 ++ [Effect.synthCancel] ++ r2.2, threw := false }

/-- Properties actually present on the change event delivered to the input's
`onChange`: only `target` (carrying the input's current value). Any other
property name reads as `undefined`. -/
structure ChangeEvent where
  targetValue : String
deriving DecidableEq, Repr

/-- JS property lookup on the change event: `"target"` is present, every
other name yields `undefined` (`none`). -/
def ChangeEvent.getProp (e : ChangeEvent) (name : String) : Option String :=
  if name == "target" then some e.targetValue else none

/-- Embeds the input element's `onChange={e => setInput(e.targe.value)}`:
the source reads property `targe` (not `target`), which is `undefined`, so
reading `.value` of it throws a `TypeError` and `setInput` never runs. -/
def onInputChange (s : ChatState) (e : ChangeEvent) : StepResult :=
  match e.getProp "targe" with
  | none => { state := s, effects := [], threw := true }
  | some v => { state := { s with input := v }, effects := [], threw := false }

/-- Embeds the save-on-change `useEffect`: `saveChatHistory(messages)` runs
iff `storageConsent === 'accepted' && messages.length > 1`. -/
def saveEffect (consent : Consent) (msgs : List ChatMessage) : List Effect :=
  if consent = Consent.accepted && msgs.length > 1 then
    [Effect.persistSave msgs]
  else
    []

/-- Embeds the speech-to-input sync `useEffect`: `if (speechText)
setInput(speechText)` — the empty string is falsy, so clearing the speech
text never clears the input. -/
def syncSpeechToInput (s : ChatState) : ChatState :=
  if s.speechText ≠ "" then { s with input := s.speechText } else s

/-- Disabled flags of the rendered controls, read off the JSX: the text
input and the microphone button carry `disabled={isLoading}`, the send
button `disabled={isLoading || !input.trim()}`, and the Clear Chat button
has no `disabled` attribute. -/
structure RenderedControls where
  inputDisabled : Bool
  micDisabled : Bool
  sendDisabled : Bool
  clearDisabled : Bool
deriving DecidableEq, Repr

/-- Rendered disabled attributes as a function of state. -/
def renderControls (s : ChatState) : RenderedControls :=
  { inputDisabled := s.isLoading
    micDisabled := s.isLoading
    sendDisabled := s.isLoading || jsTrim s.input == ""
    clearDisabled := false }

/-- Session events: each is one discrete event applied to the state — a
submit together with its awaited generation outcome, a Clear Chat click, a
microphone toggle, a typed edit, a recognition result delivery, or the
engine's autonomous `onend` notification. -/
inductive ChatAction where
  | submit (gen : GenOutcome)
  | clearChat
  | toggleRecording
  | inputChange (e : ChangeEvent)
  | recognitionResult (results : List (String × Bool))
  | recognitionEnd
deriving Repr

/-- Dispatches one session event to its handler. -/
def dispatch (s : ChatState) (a : ChatAction) : StepResult :=
  match a with
  | ChatAction.submit gen => handleSendMessage s gen
  | ChatAction.clearChat => handleClearChat s
  | ChatAction.toggleRecording =>
    let p := handleToggleRecording s
    { state := p.1, effects := p.2, threw := false }
  | ChatAction.inputChange e => onInputChange s e
  | ChatAction.recognitionResult results =>
    { state := { s with speechText := onresultLiveText results }
      effects := []
      threw := false }
  | ChatAction.recognitionEnd =>
    { state := { s with isRecording := false }, effects := [], threw := false }

/-- One event-loop step: run the handler, then apply the React effects whose
dependencies changed — the speech-to-input sync when `speechText` changed,
and the consent-gated save when `messages` changed. -/
def step (s : ChatState) (a : ChatAction) : StepResult :=
  let r := dispatch s a
  let s2 := if r.state.speechText ≠ s.speechText then syncSpeechToInput r.state else r.state
  { state := s2
    effects := r.effects ++
      (if s2.messages ≠ s.messages then saveEffect s2.storageConsent s2.messages else [])
    threw := r.threw }

/-- Session-start configuration: the consent prop, what `loadChatHistory`
would return (`none` models both a missing and an unparsable cookie), and
the capability/prop constants. -/
structure Config where
  storageConsent : Consent
  saved : Option (List ChatMessage)
  recognitionAvailable : Bool
  synthesisAvailable : Bool
  aux : Option String
deriving DecidableEq, Repr

/-- Embeds the `useState` lazy initializer for `messages`: only when consent
is accepted is `loadChatHistory()` called, and its result is used only when
non-empty; otherwise the greeting. -/
def initMessages (consent : Consent) (saved : Option (List ChatMessage)) :
    List ChatMessage × List Effect :=
  if consent = Consent.accepted then
    match saved with
    | some ms =>
      if ms.length > 0 then (ms, [Effect.persistLoad]) else ([initialMessage], [Effect.persistLoad])
    | none => ([initialMessage], [Effect.persistLoad])
  else
    ([initialMessage], [])

/-- Mounted component state plus the effects of mounting: the lazy
initializer's load, then the save effect's first run (its dependencies
`[messages, storageConsent]` on mount). -/
def initChat (c : Config) : ChatState × List Effect :=
  let p := initMessages c.storageConsent c.saved
  ({ messages := p.1
     input := ""
     isLoading := false
     isRecording := false
     speechText := ""
     recognitionAvailable := c.recognitionAvailable
     synthesisAvailable := c.synthesisAvailable
     storageConsent := c.storageConsent
     aux := c.aux },
   p.2 ++ saveEffect c.storageConsent p.1)

/-- Runs a session: applies the actions in order, concatenating effects. -/
def run (s : ChatState) : List ChatAction → ChatState × List Effect
  | [] => (s, [])
  | a :: rest =>
    let r := step s a
    let q := run r.state rest
    (q.1, r.effects ++ q.2)

/-- Whether an effect is a persistence operation. -/
def Effect.isPersist : Effect → Bool
  | Effect.persistLoad => true
  | Effect.persistSave _ => true
  | Effect.persistClear => true
  | _ => false

/-- No effect in the list is a persistence operation. -/
def noPersist (es : List Effect) : Bool :=
  es.all (fun e => !e.isPersist)

/-- Arguments of the `speak` calls appearing in a trace, in order. -/
def speakCalls (es : List Effect) : List String :=
  es.filterMap fun e =>
    match e with
    | Effect.speakInvoke t => some t
    | _ => none

/-- Generation requests appearing in a trace. -/
def genCalls (es : List Effect) : List (List ChatMessage × Option String) :=
  es.filterMap fun e =>
    match e with
    | Effect.generationRequest h aux => some (h, aux)
    | _ => none

/-- Concrete busy state used to witness claim C2. -/
def busyState : ChatState :=
  { messages := [initialMessage]
    input := "hello"
    isLoading := true
    isRecording := false
    speechText := ""
    recognitionAvailable := true
    synthesisAvailable := true
    storageConsent := Consent.accepted
    aux := none }

/-- Concrete idle state whose pending input carries surrounding whitespace,
used to refute claim C3 as stated. -/
def paddedInputState : ChatState :=
  { messages := [initialMessage]
    input := " hi "
    isLoading := false
    isRecording := false
    speechText := ""
    recognitionAvailable := true
    synthesisAvailable := true
    storageConsent := Consent.declined
    aux := none }

/-- Concrete state with recording inactive, non-empty pending input and
stale live text, used for claim C4. -/
def recOffState : ChatState :=
  { messages := [initialMessage]
    input := "abc"
    isLoading := false
    isRecording := false
    speechText := "xyz"
    recognitionAvailable := true
    synthesisAvailable := true
    storageConsent := Consent.declined
    aux := none }

/-- Concrete idle, non-recording state used for claim C5. -/
def typingState : ChatState :=
  { messages := [initialMessage]
    input := ""
    isLoading := false
    isRecording := false
    speechText := ""
    recognitionAvailable := true
    synthesisAvailable := true
    storageConsent := Consent.declined
    aux := none }

/-- Concrete state on a platform without the speech-synthesis capability,
with non-empty pending input, used for claim C6. -/
def noSynthState : ChatState :=
  { messages := [initialMessage]
    input := "hi"
    isLoading := false
    isRecording := false
    speechText := ""
    recognitionAvailable := true
    synthesisAvailable := false
    storageConsent := Consent.declined
    aux := none }

/-- Concrete awaiting-response state used for claim C7. -/
def awaitingState : ChatState :=
  { messages := [initialMessage]
    input := "pending edit"
    isLoading := true
    isRecording := false
    speechText := ""
    recognitionAvailable := true
    synthesisAvailable := true
    storageConsent := Consent.accepted
    aux := none }

/-- Concrete idle state used to witness claim C8. -/
def failingGenState : ChatState :=
  { messages := [initialMessage]
    input := "What helps a headache?"
    isLoading := false
    isRecording := false
    speechText := ""
    recognitionAvailable := true
    synthesisAvailable := true
    storageConsent := Consent.accepted
    aux := none }

/-- Concrete declined-consent configuration used to witness claim C1. -/
def declinedConfig : Config :=
  { storageConsent := Consent.declined
    saved := some [initialMessage, { role := Role.user, content := "old" }]
    recognitionAvailable := true
    synthesisAvailable := true
    aux := none }

/-- Concatenation of the transcripts of the finalized entries, in list
order. -/
def concatFinals : List (String × Bool) → String
  | [] => ""
  | r :: rest => if r.2 then r.1 ++ concatFinals rest else concatFinals rest

/-- Concatenation of the transcripts of the interim entries, in list
order. -/
def concatInterims : List (String × Bool) → String
  | [] => ""
  | r :: rest => if r.2 then concatInterims rest else r.1 ++ concatInterims rest

/-- Modelled from the spec's words for comparison: the entries' transcripts
"concatenated in the order the segments were reported". -/
def reportOrderConcat : List (String × Bool) → String
  | [] => ""
  | r :: rest => r.1 ++ reportOrderConcat rest

/-- Whether every entry of the results list is interim. -/
def allInterim (rs : List (String × Bool)) : Bool :=
  rs.all (fun r => !r.2)

/-- Whether all finalized entries precede all interim entries in the results
list (the shape continuous Web Speech recognition actually reports). -/
def finalsFirst : List (String × Bool) → Bool
  | [] => true
  | r :: rest => if r.2 then finalsFirst rest else allInterim rest

set_option maxRecDepth 20000

/-! Helper lemmas about the embedded handlers. -/
/-- Guard branch of `handleSendMessage`: a submit while busy or with
whitespace-only input returns with no state change and no effects. -/
theorem handleSendMessage_rejected (s : ChatState) (gen : GenOutcome)
    (h : s.isLoading = true ∨ jsTrim s.input = "") :
    handleSendMessage s gen = { state := s, effects := [], threw := false } := by
  unfold handleSendMessage
  rcases h with h | h
  · simp [h]
  · simp [h]
/-- Full characterization of a submit that passes the guard, with the
speech-synthesis capability present. -/
theorem handleSendMessage_run (s : ChatState) (gen : GenOutcome)
    (h1 : jsTrim s.input ≠ "") (h2 : s.isLoading = false)
    (h3 : s.synthesisAvailable = true) :
    handleSendMessage s gen =
      { state := { s with
            messages := s.messages ++
              [{ role := Role.user, content := s.input },
               { role := Role.model, content := responseOf gen }]
            input := ""
            speechText := ""
            isLoading := false
            isRecording := s.isRecording && !s.recognitionAvailable }
        effects := (if s.isRecording && s.recognitionAvailable then [Effect.engineStop] else [])
            ++ [Effect.synthCancel,
                Effect.generationRequest
                  (s.messages ++ [{ role := Role.user, content := s.input }]) s.aux,
                Effect.speakInvoke (responseOf gen), Effect.synthCancel,
                Effect.utter (responseOf gen)]
        threw := false } := by
  unfold handleSendMessage stopRecording speak
  cases hrec : s.isRecording <;> cases hra : s.recognitionAvailable <;>
    simp_all
/-- C2: a submit attempted while a response is in flight, or with pending
input that is empty or whitespace-only after trimming, is rejected silently:
the whole state (transcript, pending input, recording state, busy flag) is
unchanged, no effects occur (so no user message is appended and no second
generation request is issued), both at handler level and after the React
effects of the step. -/
theorem claim2_submit_rejected_silently (s : ChatState) (gen : GenOutcome)
    (h : s.isLoading = true ∨ jsTrim s.input = "") :
    handleSendMessage s gen = { state := s, effects := [], threw := false }
    ∧ step s (ChatAction.submit gen) = { state := s, effects := [], threw := false } := by
  have hh := handleSendMessage_rejected s gen h
  refine ⟨hh, ?_⟩
  simp [step, dispatch, hh]
/-- Witness for C2 at the concrete busy state. -/
theorem claim2_witness :
    handleSendMessage busyState (Except.ok "r")
        = { state := busyState, effects := [], threw := false }
    ∧ step busyState (ChatAction.submit (Except.ok "r"))
        = { state := busyState, effects := [], threw := false } :=
  claim2_submit_rejected_silently busyState (Except.ok "r") (Or.inl rfl)
/-- C3 counterexample: submitting the pending input `" hi "` appends a user
message whose content is `" hi "` itself, not the trimmed `"hi"` the claim
requires — the code builds `{ role: 'user', content: input }` from the
untrimmed `input`; trimming appears only in the submission guard. -/
theorem claim3_counterexample :
    (handleSendMessage paddedInputState (Except.ok "ok")).state.messages.get? 1
        = some { role := Role.user, content := " hi " }
    ∧ jsTrim paddedInputState.input = "hi"
    ∧ (" hi " : String) ≠ "hi" := by decide
/-- C3 amended: for every submit with non-whitespace pending input in the
idle state (and the synthesis capability present, without which the submit
aborts), the appended user message's content equals the pending input
exactly as entered, untrimmed; trimming is applied only in the guard. -/
theorem claim3_amended_untrimmed_append (s : ChatState) (gen : GenOutcome)
    (h1 : jsTrim s.input ≠ "") (h2 : s.isLoading = false)
    (h3 : s.synthesisAvailable = true) :
    (handleSendMessage s gen).state.messages =
      s.messages ++
        [{ role := Role.user, content := s.input },
         { role := Role.model, content := responseOf gen }] := by
  rw [handleSendMessage_run s gen h1 h2 h3]
/-- Witness for the amended C3 at a concrete padded input. -/
theorem claim3_witness :
    (handleSendMessage { paddedInputState with input := " headache " }
        (Except.ok "resp")).state.messages =
      [initialMessage] ++
        [{ role := Role.user, content := " headache " },
         { role := Role.model, content := "resp" }] :=
  claim3_amended_untrimmed_append { paddedInputState with input := " headache " }
    (Except.ok "resp") (by decide) rfl rfl
/-- C4 counterexample: toggling recording on from `recOffState` clears the
live recording text and starts capture, but leaves the pending input
`"abc"` in place — `startRecording` only calls `setText('')`, and the
speech-to-input sync effect skips the falsy empty string, so the pending
input never becomes empty as the claim requires. -/
theorem claim4_counterexample :
    (step recOffState ChatAction.toggleRecording).state.input = "abc"
    ∧ (step recOffState ChatAction.toggleRecording).state.speechText = ""
    ∧ (step recOffState ChatAction.toggleRecording).state.isRecording = true
    ∧ ("abc" : String) ≠ "" := by decide
/-- C4 amended: with the recognition capability present, toggling while
inactive clears the live recording text (only) and starts capture; toggling
while active stops capture; in either case the pending input is left
unchanged by the toggle step. -/
theorem claim4_amended_toggle (s : ChatState) (h : s.recognitionAvailable = true) :
    (s.isRecording = false →
        handleToggleRecording s =
          ({ s with speechText := "", isRecording := true }, [Effect.engineStart]))
    ∧ (s.isRecording = true →
        handleToggleRecording s = ({ s with isRecording := false }, [Effect.engineStop]))
    ∧ (step s ChatAction.toggleRecording).state.input = s.input := by
  refine ⟨?_, ?_, ?_⟩
  · intro hrec
    simp [handleToggleRecording, startRecording, hrec, h]
  · intro hrec
    simp [handleToggleRecording, stopRecording, hrec, h]
  · cases hrec : s.isRecording <;>
      simp [step, dispatch, handleToggleRecording, startRecording, stopRecording,
        syncSpeechToInput, hrec, h]
/-- Witness for the amended C4 at the concrete inactive state. -/
theorem claim4_witness :
    handleToggleRecording recOffState =
      ({ recOffState with speechText := "", isRecording := true }, [Effect.engineStart])
    ∧ (step recOffState ChatAction.toggleRecording).state.input = recOffState.input :=
  ⟨(claim4_amended_toggle recOffState rfl).1 rfl,
   (claim4_amended_toggle recOffState rfl).2.2⟩
/-- C5: the input's `onChange` handler reads `e.targe.value` — property
`targe` (a typo for `target`) is absent from the change event, so the read
yields `undefined`, the `.value` access throws a `TypeError`, and the
pending input never becomes the typed text. The event does carry the typed
text under `target`, so the intended `e.target.value` would have produced
it. Evaluated at a typed edit carrying `"a"`. -/
theorem claim5_input_change_throws :
    onInputChange typingState { targetValue := "a" }
        = { state := typingState, effects := [], threw := true }
    ∧ ChangeEvent.getProp { targetValue := "a" } "targe" = none
    ∧ ChangeEvent.getProp { targetValue := "a" } "target" = some "a"
    ∧ (onInputChange typingState { targetValue := "a" }).state.input ≠ "a" := by
  decide
/-- C6: when the speech-synthesis capability is absent, the guarded `speak`
helper does degrade to a no-op (no engine effect), but the direct
`window.speechSynthesis.cancel()` calls in submit and in clear session are
unguarded and throw: the submit aborts before appending the user message or
issuing a generation request, and clear session throws after resetting the
transcript — contradicting the claim that no call site throws. -/
theorem claim6_unguarded_cancel_throws :
    speak false "hello" = [Effect.speakInvoke "hello"]
    ∧ (handleSendMessage noSynthState (Except.ok "r")).threw = true
    ∧ (handleSendMessage noSynthState (Except.ok "r")).state.messages
        = noSynthState.messages
    ∧ (handleSendMessage noSynthState (Except.ok "r")).effects = []
    ∧ (handleClearChat noSynthState).threw = true := by
  decide
/-- C7 counterexample: in the busy state the rendered text input and the
microphone button both carry `disabled={isLoading}` = `true`, so edits to
the pending input and recording toggles are blocked while busy, contrary to
the claim that they remain possible and take effect. -/
theorem claim7_counterexample :
    (renderControls awaitingState).inputDisabled = true
    ∧ (renderControls awaitingState).micDisabled = true := by decide
/-- Clear Chat always resets the in-memory transcript to the single
greeting, on every branch (consent, capability, recording). -/
theorem handleClearChat_messages (s : ChatState) :
    (handleClearChat s).state.messages = [initialMessage] := by
  cases hsy : s.synthesisAvailable <;> cases hrec : s.isRecording <;>
    cases hra : s.recognitionAvailable <;> cases hc : s.storageConsent <;>
    simp [handleClearChat, stopRecording, hsy, hrec, hra, hc]
/-- C7 amended: while busy, further submissions are rejected silently and
the Clear Chat button stays enabled and takes effect (it resets the
transcript to the greeting), but the text input and the microphone button
are rendered disabled, so pending-input edits and recording toggles are
blocked at the UI while the controller is awaiting a response. -/
theorem claim7_amended_busy_controls (s : ChatState) (gen : GenOutcome)
    (h : s.isLoading = true) :
    handleSendMessage s gen = { state := s, effects := [], threw := false }
    ∧ (renderControls s).inputDisabled = true
    ∧ (renderControls s).micDisabled = true
    ∧ (renderControls s).clearDisabled = false
    ∧ (handleClearChat s).state.messages = [initialMessage] := by
  refine ⟨handleSendMessage_rejected s gen (Or.inl h), ?_, ?_, ?_, ?_⟩
  · simp [renderControls, h]
  · simp [renderControls, h]
  · simp [renderControls]
  · exact handleClearChat_messages s
/-- Witness for the amended C7 at the concrete awaiting-response state. -/
theorem claim7_witness :
    handleSendMessage awaitingState (Except.ok "r")
        = { state := awaitingState, effects := [], threw := false }
    ∧ (renderControls awaitingState).inputDisabled = true
    ∧ (renderControls awaitingState).micDisabled = true
    ∧ (renderControls awaitingState).clearDisabled = false
    ∧ (handleClearChat awaitingState).state.messages = [initialMessage] :=
  claim7_amended_busy_controls awaitingState (Except.ok "r") rfl
/-- C8: when the generation call fails (with any underlying error text),
exactly one model message with the fixed apology content is appended after
the user message, the `speak` helper is called exactly once and with that
same apology text, the busy flag returns to false, and the underlying error
text (assumed not already present as a message or as the pending input, and
distinct from the apology) appears nowhere in the resulting transcript. -/
theorem claim8_generation_failure (s : ChatState) (errText : String)
    (h1 : jsTrim s.input ≠ "") (h2 : s.isLoading = false)
    (h3 : s.synthesisAvailable = true)
    (h4 : errText ∉ s.messages.map ChatMessage.content)
    (h5 : errText ≠ s.input) (h6 : errText ≠ apologyText) :
    (handleSendMessage s (Except.error errText)).state.messages
        = s.messages ++
            [{ role := Role.user, content := s.input },
             { role := Role.model, content := apologyText }]
    ∧ speakCalls (handleSendMessage s (Except.error errText)).effects = [apologyText]
    ∧ (handleSendMessage s (Except.error errText)).state.isLoading = false
    ∧ errText ∉ ((handleSendMessage s (Except.error errText)).state.messages.map
        ChatMessage.content) := by
  have hr := handleSendMessage_run s (Except.error errText) h1 h2 h3
  rw [hr]
  refine ⟨by simp [responseOf], ?_, rfl, ?_⟩
  · split <;> simp [speakCalls, responseOf]
  · simp [responseOf]
    push_neg
    refine ⟨fun m hm hcontra => ?_, fun hcontra => h5 hcontra,
      fun hcontra => h6 hcontra⟩
    exact h4 (hcontra ▸ List.mem_map_of_mem ChatMessage.content hm)
/-- Witness for C8 at a concrete failing generation call. -/
theorem claim8_witness :
    (handleSendMessage failingGenState (Except.error "boom")).state.messages
        = failingGenState.messages ++
            [{ role := Role.user, content := "What helps a headache?" },
             { role := Role.model, content := apologyText }]
    ∧ speakCalls (handleSendMessage failingGenState (Except.error "boom")).effects
        = [apologyText]
    ∧ (handleSendMessage failingGenState (Except.error "boom")).state.isLoading = false
    ∧ "boom" ∉ ((handleSendMessage failingGenState (Except.error "boom")).state.messages.map
        ChatMessage.content) :=
  claim8_generation_failure failingGenState "boom" (by decide) rfl rfl
    (by decide) (by decide) (by decide)
/-- The speech-to-input sync never touches the consent prop. -/
theorem syncSpeechToInput_consent (s : ChatState) :
    (syncSpeechToInput s).storageConsent = s.storageConsent := by
  unfold syncSpeechToInput
  split <;> rfl
/-- The speech-to-input sync never touches the transcript. -/
theorem syncSpeechToInput_messages (s : ChatState) :
    (syncSpeechToInput s).messages = s.messages := by
  unfold syncSpeechToInput
  split <;> rfl
/-- Submit never changes the consent prop. -/
theorem handleSendMessage_consent (s : ChatState) (gen : GenOutcome) :
    (handleSendMessage s gen).state.storageConsent = s.storageConsent := by
  cases hg : (jsTrim s.input == "") <;> cases hl : s.isLoading <;>
    cases hsy : s.synthesisAvailable <;> cases hrec : s.isRecording <;>
    cases hra : s.recognitionAvailable <;>
    simp [handleSendMessage, stopRecording, hg, hl, hsy, hrec, hra]
/-- Clear Chat never changes the consent prop. -/
theorem handleClearChat_consent (s : ChatState) :
    (handleClearChat s).state.storageConsent = s.storageConsent := by
  cases hsy : s.synthesisAvailable <;> cases hrec : s.isRecording <;>
    cases hra : s.recognitionAvailable <;> cases hc : s.storageConsent <;>
    simp [handleClearChat, stopRecording, hsy, hrec, hra, hc]
/-- The recording toggle never changes the consent prop. -/
theorem handleToggleRecording_consent (s : ChatState) :
    (handleToggleRecording s).1.storageConsent = s.storageConsent := by
  cases hrec : s.isRecording <;> cases hra : s.recognitionAvailable <;>
    simp [handleToggleRecording, startRecording, stopRecording, hrec, hra]
/-- The recording toggle never changes the transcript. -/
theorem handleToggleRecording_messages (s : ChatState) :
    (handleToggleRecording s).1.messages = s.messages := by
  cases hrec : s.isRecording <;> cases hra : s.recognitionAvailable <;>
    simp [handleToggleRecording, startRecording, stopRecording, hrec, hra]
/-- The typed-edit handler never changes the consent prop. -/
theorem onInputChange_consent (s : ChatState) (e : ChangeEvent) :
    (onInputChange s e).state.storageConsent = s.storageConsent := by
  unfold onInputChange ChangeEvent.getProp
  split <;> simp_all
/-- The typed-edit handler never changes the transcript. -/
theorem onInputChange_messages (s : ChatState) (e : ChangeEvent) :
    (onInputChange s e).state.messages = s.messages := by
  unfold onInputChange ChangeEvent.getProp
  split <;> simp_all
/-- The dispatched handler never changes the consent prop. -/
theorem dispatch_consent (s : ChatState) (a : ChatAction) :
    (dispatch s a).state.storageConsent = s.storageConsent := by
  cases a <;>
    simp [dispatch, handleSendMessage_consent, handleClearChat_consent,
      handleToggleRecording_consent, onInputChange_consent]
/-- One step never changes the consent prop. -/
theorem step_consent (s : ChatState) (a : ChatAction) :
    (step s a).state.storageConsent = s.storageConsent := by
  unfold step
  dsimp only
  split
  · rw [syncSpeechToInput_consent, dispatch_consent]
  · rw [dispatch_consent]
/-- Submit produces no persistence effect on any branch. -/
theorem handleSendMessage_noPersist (s : ChatState) (gen : GenOutcome) :
    noPersist (handleSendMessage s gen).effects = true := by
  cases hg : (jsTrim s.input == "") <;> cases hl : s.isLoading <;>
    cases hsy : s.synthesisAvailable <;> cases hrec : s.isRecording <;>
    cases hra : s.recognitionAvailable <;>
    simp [handleSendMessage, stopRecording, speak, noPersist, Effect.isPersist,
      hg, hl, hsy, hrec, hra]
/-- Clear Chat produces no persistence effect unless consent is accepted. -/
theorem handleClearChat_noPersist (s : ChatState)
    (h : s.storageConsent ≠ Consent.accepted) :
    noPersist (handleClearChat s).effects = true := by
  cases hsy : s.synthesisAvailable <;> cases hrec : s.isRecording <;>
    cases hra : s.recognitionAvailable <;>
    simp [handleClearChat, stopRecording, noPersist, Effect.isPersist,
      hsy, hrec, hra, h]
/-- The recording toggle produces only engine effects, never persistence. -/
theorem handleToggleRecording_noPersist (s : ChatState) :
    noPersist (handleToggleRecording s).2 = true := by
  cases hrec : s.isRecording <;> cases hra : s.recognitionAvailable <;>
    simp [handleToggleRecording, startRecording, stopRecording, noPersist,
      Effect.isPersist, hrec, hra]
/-- The save-on-change effect is empty unless consent is accepted. -/
theorem saveEffect_ne (consent : Consent) (msgs : List ChatMessage)
    (h : consent ≠ Consent.accepted) :
    saveEffect consent msgs = [] := by
  unfold saveEffect
  simp [h]
/-- Concatenating traces: no persistence in either part. -/
theorem noPersist_append (a b : List Effect) :
    noPersist (a ++ b) = (noPersist a && noPersist b) := by
  simp [noPersist]
/-- The dispatched handler produces no persistence effect unless consent is
accepted. -/
theorem dispatch_noPersist (s : ChatState) (a : ChatAction)
    (h : s.storageConsent ≠ Consent.accepted) :
    noPersist (dispatch s a).effects = true := by
  cases a with
  | submit gen => exact handleSendMessage_noPersist s gen
  | clearChat => exact handleClearChat_noPersist s h
  | toggleRecording => exact handleToggleRecording_noPersist s
  | inputChange e =>
    show noPersist (onInputChange s e).effects = true
    unfold onInputChange ChangeEvent.getProp
    split <;> rfl
  | recognitionResult results => rfl
  | recognitionEnd => rfl
/-- One step produces no persistence effect unless consent is accepted. -/
theorem step_noPersist (s : ChatState) (a : ChatAction)
    (h : s.storageConsent ≠ Consent.accepted) :
    noPersist (step s a).effects = true := by
  unfold step
  dsimp only
  rw [noPersist_append, Bool.and_eq_true]
  refine ⟨dispatch_noPersist s a h, ?_⟩
  split
  · split
    · rw [syncSpeechToInput_consent, dispatch_consent, saveEffect_ne _ _ h]
      rfl
    · rfl
  · split
    · rw [dispatch_consent, saveEffect_ne _ _ h]
      rfl
    · rfl
/-- A whole session run never changes the consent prop. -/
theorem run_consent (acts : List ChatAction) (s : ChatState) :
    (run s acts).1.storageConsent = s.storageConsent := by
  induction acts generalizing s with
  | nil => rfl
  | cons a rest ih =>
    show (run (step s a).state rest).1.storageConsent = s.storageConsent
    rw [ih, step_consent]
/-- A whole session run produces no persistence effect unless consent is
accepted. -/
theorem run_noPersist (acts : List ChatAction) (s : ChatState)
    (h : s.storageConsent ≠ Consent.accepted) :
    noPersist (run s acts).2 = true := by
  induction acts generalizing s with
  | nil => rfl
  | cons a rest ih =>
    show noPersist ((step s a).effects ++ (run (step s a).state rest).2) = true
    rw [noPersist_append, Bool.and_eq_true]
    exact ⟨step_noPersist s a h, ih _ (by rw [step_consent]; exact h)⟩
/-- Mount produces no persistence effect unless consent is accepted. -/
theorem initChat_noPersist (c : Config) (h : c.storageConsent ≠ Consent.accepted) :
    (initChat c).2 = [] := by
  unfold initChat initMessages saveEffect
  simp [h]
/-- C1: with consent declined or pending (anything other than accepted), no
persistence operation — the load at mount, any save after a transcript
mutation, or the clear of the persisted store — occurs anywhere in the
session trace, whatever sequence of events mutates the transcript. -/
theorem claim1_persistence_gating (c : Config) (acts : List ChatAction)
    (h : c.storageConsent ≠ Consent.accepted) :
    noPersist ((initChat c).2 ++ (run (initChat c).1 acts).2) = true := by
  rw [initChat_noPersist c h, List.nil_append]
  exact run_noPersist acts (initChat c).1 h
/-- Witness for C1: a declined-consent session that submits (success and
failure), toggles recording, receives recognition results, edits, and
clears, produces a trace with no persistence effect. -/
theorem claim1_witness :
    noPersist ((initChat declinedConfig).2 ++
      (run (initChat declinedConfig).1
        [ChatAction.toggleRecording,
         ChatAction.recognitionResult [("What helps a headache?", true)],
         ChatAction.submit (Except.ok "Try rest."),
         ChatAction.inputChange { targetValue := "more" },
         ChatAction.submit (Except.error "network down"),
         ChatAction.clearChat,
         ChatAction.recognitionEnd]).2) = true :=
  claim1_persistence_gating declinedConfig
    [ChatAction.toggleRecording,
     ChatAction.recognitionResult [("What helps a headache?", true)],
     ChatAction.submit (Except.ok "Try rest."),
     ChatAction.inputChange { targetValue := "more" },
     ChatAction.submit (Except.error "network down"),
     ChatAction.clearChat,
     ChatAction.recognitionEnd]
    (by decide)
/-- Submit never shortens the transcript: it appends or leaves it alone. -/
theorem handleSendMessage_messages_len (s : ChatState) (gen : GenOutcome) :
    s.messages.length ≤ (handleSendMessage s gen).state.messages.length := by
  cases hg : (jsTrim s.input == "") <;> cases hl : s.isLoading <;>
    cases hsy : s.synthesisAvailable <;> cases hrec : s.isRecording <;>
    cases hra : s.recognitionAvailable <;>
    simp [handleSendMessage, stopRecording, hg, hl, hsy, hrec, hra]
/-- The dispatched handler keeps the transcript non-empty. -/
theorem dispatch_messages_nonempty (s : ChatState) (a : ChatAction)
    (h : 1 ≤ s.messages.length) :
    1 ≤ (dispatch s a).state.messages.length := by
  cases a with
  | submit gen => exact le_trans h (handleSendMessage_messages_len s gen)
  | clearChat =>
    show 1 ≤ (handleClearChat s).state.messages.length
    rw [handleClearChat_messages]
    exact le_refl 1
  | toggleRecording =>
    show 1 ≤ (handleToggleRecording s).1.messages.length
    rw [handleToggleRecording_messages]
    exact h
  | inputChange e =>
    show 1 ≤ (onInputChange s e).state.messages.length
    rw [onInputChange_messages]
    exact h
  | recognitionResult results => exact h
  | recognitionEnd => exact h
/-- One step keeps the transcript non-empty. -/
theorem step_messages_nonempty (s : ChatState) (a : ChatAction)
    (h : 1 ≤ s.messages.length) :
    1 ≤ (step s a).state.messages.length := by
  have hd := dispatch_messages_nonempty s a h
  unfold step
  dsimp only
  split
  · rw [syncSpeechToInput_messages]
    exact hd
  · exact hd
/-- A whole session run keeps the transcript non-empty. -/
theorem run_messages_nonempty (acts : List ChatAction) (s : ChatState)
    (h : 1 ≤ s.messages.length) :
    1 ≤ (run s acts).1.messages.length := by
  induction acts generalizing s with
  | nil => exact h
  | cons a rest ih =>
    show 1 ≤ (run (step s a).state rest).1.messages.length
    exact ih _ (step_messages_nonempty s a h)
/-- The mount initializer yields a non-empty transcript: restored history is
used only when non-empty, otherwise the greeting. -/
theorem initMessages_nonempty (consent : Consent) (saved : Option (List ChatMessage)) :
    1 ≤ (initMessages consent saved).1.length := by
  unfold initMessages
  split
  · cases saved with
    | none => exact le_refl 1
    | some ms =>
      dsimp only
      split
      · next hms => exact hms
      · exact le_refl 1
  · exact le_refl 1
/-- C9: in every reachable session state the transcript is non-empty — it
starts as the greeting or a non-empty restored history, submits only
append, and Clear Chat resets it to exactly the single greeting (the
reachable states are exactly the results of `run` over all event
sequences, every prefix of a sequence being itself a sequence). -/
theorem claim9_nonempty_transcript (c : Config) (acts : List ChatAction) :
    1 ≤ ((run (initChat c).1 acts).1).messages.length :=
  run_messages_nonempty acts (initChat c).1
    (initMessages_nonempty c.storageConsent c.saved)
/-- The `onresult` accumulation loop computes the two concatenations, each
prefixed by its accumulator. -/
theorem scanResultsLoop_eq (rs : List (String × Bool))
    (ft it : String) :
    scanResultsLoop rs ft it = (ft ++ concatFinals rs, it ++ concatInterims rs) := by
  induction rs generalizing ft it with
  | nil => simp [scanResultsLoop, concatFinals, concatInterims]
  | cons r rest ih =>
    cases hf : r.2 <;>
      simp [scanResultsLoop, concatFinals, concatInterims, hf, ih,
        String.append_assoc]
/-- On an all-interim list the finalized concatenation is empty. -/
theorem concatFinals_allInterim (rs : List (String × Bool))
    (h : allInterim rs = true) : concatFinals rs = "" := by
  induction rs with
  | nil => rfl
  | cons r rest ih =>
    rw [allInterim] at h
    simp only [List.all_cons, Bool.and_eq_true, Bool.not_eq_true'] at h
    simp [concatFinals, h.1, ih (by rw [allInterim]; exact h.2)]
/-- On an all-interim list the interim concatenation is the report-order
concatenation. -/
theorem concatInterims_allInterim (rs : List (String × Bool))
    (h : allInterim rs = true) : concatInterims rs = reportOrderConcat rs := by
  induction rs with
  | nil => rfl
  | cons r rest ih =>
    rw [allInterim] at h
    simp only [List.all_cons, Bool.and_eq_true, Bool.not_eq_true'] at h
    simp [concatInterims, reportOrderConcat, h.1,
      ih (by rw [allInterim]; exact h.2)]
/-- C10 counterexample: on the results list `[("a", interim), ("b", final)]`
the code emits `"ba"` — all finalized transcripts first, then the interim
ones — while concatenation "in the order the segments were reported" gives
`"ab"`; the two differ whenever a finalized entry follows an interim one. -/
theorem claim10_counterexample :
    onresultLiveText [("a", false), ("b", true)] = "ba"
    ∧ reportOrderConcat [("a", false), ("b", true)] = "ab"
    ∧ ("ba" : String) ≠ "ab" := by decide
/-- C10 amended: on every recognition update the emitted liveText equals the
concatenation of the finalized entries' transcripts in report order followed
by the concatenation of the interim entries' transcripts in report order;
this coincides with plain report-order concatenation exactly when every
finalized entry precedes every interim entry in the results list. -/
theorem claim10_amended_finals_first (rs : List (String × Bool)) :
    onresultLiveText rs = concatFinals rs ++ concatInterims rs
    ∧ (finalsFirst rs = true → onresultLiveText rs = reportOrderConcat rs) := by
  have hbase : onresultLiveText rs = concatFinals rs ++ concatInterims rs := by
    unfold onresultLiveText
    rw [scanResultsLoop_eq]
    simp [String.empty_append]
  refine ⟨hbase, ?_⟩
  intro hff
  rw [hbase]
  clear hbase
  induction rs with
  | nil => rfl
  | cons r rest ih =>
    rw [finalsFirst] at hff
    cases hf : r.2 with
    | true =>
      rw [hf] at hff
      simp at hff
      simp [concatFinals, concatInterims, reportOrderConcat, hf,
        String.append_assoc, ih hff]
    | false =>
      rw [hf] at hff
      simp at hff
      simp [concatFinals, concatInterims, reportOrderConcat, hf,
        concatFinals_allInterim rest hff, concatInterims_allInterim rest hff,
        String.empty_append]
/-- Witness for the amended C10 at a finals-before-interims update. -/
theorem claim10_witness :
    onresultLiveText [("head", true), ("ache relief", false)]
        = concatFinals [("head", true), ("ache relief", false)]
            ++ concatInterims [("head", true), ("ache relief", false)]
    ∧ onresultLiveText [("head", true), ("ache relief", false)]
        = reportOrderConcat [("head", true), ("ache relief", false)] :=
  ⟨(claim10_amended_finals_first [("head", true), ("ache relief", false)]).1,
   (claim10_amended_finals_first [("head", true), ("ache relief", false)]).2 (by decide)⟩
